import Mathlib

/-!
# Verification of the sports-backend prediction pipeline

A shallow embedding, in Lean 4, of the computation pipeline implemented in
`server.js` of the sports-backend repository: probability blending
(`adjustProbabilities`), market derivation (`deriveTotals`,
`deriveFirstHalf`, `deriveFulltime`), display formatting (`pct`,
`makeOdds`, `suggest`), combo composition (`composeDoubleChanceCombos`)
and the `POST /predict` handler.

Modelling conventions:
* JavaScript numbers are modelled by `ℚ` (the arithmetic in the source is
  exact decimal arithmetic on integer percentages and fixed decimal
  weights; `ℚ` realises the intended values).  Integer-valued quantities
  (anchor percentages, rounded results) are carried as `ℤ`.
* `Math.round` is `round : ℚ → ℤ` (Mathlib's `round` is round-half-up,
  `round x = ⌊x + 1/2⌋`, exactly JavaScript's `Math.round`).
* `Math.max(a, Math.min(b, x))` is `max a (min b x)`.
* The JSON value sent by `res.json` is modelled by the inductive `Json`;
  route results are a pair of HTTP status code and body.
-/

namespace SportsBackend

/-- Baseline / blended market anchors: the eight market keys used by
`aiBase` and produced by `adjustProbabilities` in `server.js`. -/
structure Anchors where
  homeWin : ℤ
  draw : ℤ
  awayWin : ℤ
  btts : ℤ
  over25 : ℤ
  firstHalfGoals : ℤ
  cornersHigh : ℤ
  cardsHigh : ℤ
deriving DecidableEq, Repr

/-- The object returned by `fetchExpertData` in `server.js`: the eight
expert market values plus the textual notes. -/
structure ExpertData where
  expert_win : ℤ
  expert_draw : ℤ
  expert_away : ℤ
  expert_btts : ℤ
  expert_over25 : ℤ
  expert_first_half_goals : ℤ
  expert_corners_high : ℤ
  expert_cards_high : ℤ
  expert_notes : List String
deriving DecidableEq, Repr

/-- `const weightModel = 0.6` in `adjustProbabilities`. -/
def weightModel : ℚ := 6 / 10

/-- `const weightExpert = 0.4` in `adjustProbabilities`. -/
def weightExpert : ℚ := 4 / 10

/-- `const blend = (m, e) => Math.round(m * weightModel + e * weightExpert)`
(`server.js` line 64). -/
def blend (m e : ℤ) : ℤ :=
  round ((m : ℚ) * weightModel + (e : ℚ) * weightExpert)

/-- `adjustProbabilities(defaults, experts)` (`server.js` lines 61-76):
blends every anchor key with the fixed 0.6 / 0.4 weights. -/
def adjustProbabilities (defaults : Anchors) (experts : ExpertData) : Anchors where
  homeWin := blend defaults.homeWin experts.expert_win
  draw := blend defaults.draw experts.expert_draw
  awayWin := blend defaults.awayWin experts.expert_away
  btts := blend defaults.btts experts.expert_btts
  over25 := blend defaults.over25 experts.expert_over25
  firstHalfGoals := blend defaults.firstHalfGoals experts.expert_first_half_goals
  cornersHigh := blend defaults.cornersHigh experts.expert_corners_high
  cardsHigh := blend defaults.cardsHigh experts.expert_cards_high

/-- `const pct = (n) => ` the string
`Math.max(0, Math.min(100, Math.round(n)))` followed by a percent sign
(`server.js` line 81). -/
def pct (n : ℚ) : String :=
  toString (max 0 (min 100 (round n))) ++ "%"

/-- `const suggest = (p) => (p >= 70 ? "High" : p >= 50 ? "Medium" : "Low")`
(`server.js` line 82). -/
def suggest (p : ℚ) : String :=
  if 70 ≤ p then "High" else if 50 ≤ p then "Medium" else "Low"

/-- The clamped decimal odds computed inside `makeOdds` (`server.js`
lines 85-90): `p = Math.max(1, Math.min(99, probPercent)) / 100` and then
`Math.max(1.1, Math.min(10.0, 1 / p))`. -/
def makeOddsDec (probPercent : ℚ) : ℚ :=
  max (11 / 10) (min 10 (1 / (max 1 (min 99 probPercent) / 100)))

/-- The value displayed by `dec.toFixed(2)` in hundredths: the decimal
odds rounded to two decimal digits. -/
def makeOddsH (probPercent : ℚ) : ℤ :=
  round (100 * makeOddsDec probPercent)

/-- Renders a nonnegative number of hundredths as a fixed two-decimal
string, the format produced by `toFixed(2)`. -/
def fmt2 (h : ℤ) : String :=
  let n := h.toNat
  let frac := n % 100
  toString (n / 100) ++ "." ++ (if frac < 10 then "0" ++ toString frac else toString frac)

/-- `makeOdds(probPercent)` (`server.js` lines 85-90): the decimal odds
string `dec.toFixed(2)`. -/
def makeOdds (probPercent : ℚ) : String :=
  fmt2 (makeOddsH probPercent)

/-- The six goal lines 0.5 … 5.5 of the totals market. -/
structure GoalLines where
  l05 : ℤ
  l15 : ℤ
  l25 : ℤ
  l35 : ℤ
  l45 : ℤ
  l55 : ℤ
deriving DecidableEq, Repr

/-- The `mapping` object built in `deriveTotals` (`server.js` lines
97-104): the Over probability for each goal line from the `over25`
anchor. -/
def overLines (over25 : ℤ) : GoalLines where
  l05 := max 70 (over25 + 12)
  l15 := max 62 (over25 + 4)
  l25 := over25
  l35 := max 32 (over25 - 26)
  l45 := max 22 (over25 - 36)
  l55 := max 14 (over25 - 44)

/-- The `under` object of `deriveTotals` (`server.js` line 106):
`Math.max(0, 100 - v)` entrywise over the Over mapping. -/
def underLines (over : GoalLines) : GoalLines where
  l05 := max 0 (100 - over.l05)
  l15 := max 0 (100 - over.l15)
  l25 := max 0 (100 - over.l25)
  l35 := max 0 (100 - over.l35)
  l45 := max 0 (100 - over.l45)
  l55 := max 0 (100 - over.l55)

/-- Result of `deriveTotals`. -/
structure Totals where
  over : GoalLines
  under : GoalLines
deriving DecidableEq, Repr

/-- `deriveTotals(adjusted)` (`server.js` lines 95-108). -/
def deriveTotals (adjusted : Anchors) : Totals where
  over := overLines adjusted.over25
  under := underLines (overLines adjusted.over25)

/-- The first-half 1X2 triple of `deriveFirstHalf`. -/
structure FH1x2 where
  home : ℤ
  draw : ℤ
  away : ℤ
deriving DecidableEq, Repr

/-- Result of `deriveFirstHalf`: Over/Under 0.5 and 1.5 plus the
flattened first-half 1X2. -/
structure FirstHalf where
  over05 : ℤ
  over15 : ℤ
  under05 : ℤ
  under15 : ℤ
  fh1x2 : FH1x2
deriving DecidableEq, Repr

/-- `deriveFirstHalf(adjusted)` (`server.js` lines 110-125). -/
def deriveFirstHalf (adjusted : Anchors) : FirstHalf :=
  let fh := adjusted.firstHalfGoals
  let over05 := max 58 (fh + 6)
  let over15 := max 46 (fh - 6)
  { over05 := over05
    over15 := over15
    under05 := max 0 (100 - over05)
    under15 := max 0 (100 - over15)
    fh1x2 :=
      { home := round ((adjusted.homeWin : ℚ) * (9 / 10))
        draw := round ((adjusted.draw : ℚ) * (12 / 10))
        away := round ((adjusted.awayWin : ℚ) * (9 / 10)) } }

/-- The full-time 1X2 object of `deriveFulltime`. -/
structure OneX2 where
  home : ℤ
  draw : ℤ
  away : ℤ
deriving DecidableEq, Repr

/-- The double-chance object of `deriveFulltime`; fields `oneX`, `xTwo`,
`oneTwo` model the JavaScript keys "1X", "X2", "12". -/
structure DC where
  oneX : ℤ
  xTwo : ℤ
  oneTwo : ℤ
deriving DecidableEq, Repr

/-- Result of `deriveFulltime`. -/
structure Fulltime where
  oneX2 : OneX2
  dc : DC
deriving DecidableEq, Repr

/-- `deriveFulltime(adjusted)` (`server.js` lines 127-135): raw 1X2 plus
double chance clamped to `[0,100]` by `Math.max(0, Math.min(100, …))`. -/
def deriveFulltime (adjusted : Anchors) : Fulltime where
  oneX2 := { home := adjusted.homeWin, draw := adjusted.draw, away := adjusted.awayWin }
  dc :=
    { oneX := max 0 (min 100 (adjusted.homeWin + adjusted.draw))
      xTwo := max 0 (min 100 (adjusted.draw + adjusted.awayWin))
      oneTwo := max 0 (min 100 (adjusted.homeWin + adjusted.awayWin)) }

/-- The raw first-half BTTS Yes value `Math.round(adjusted.btts * 0.7)`
(`server.js` lines 307 and 393). -/
def fhBttsYesRaw (b : ℤ) : ℤ :=
  round ((b : ℚ) * (7 / 10))

/-- The raw first-half BTTS No value
`Math.round((100 - adjusted.btts) * 1.1)` (`server.js` lines 308 and
393). -/
def fhBttsNoRaw (b : ℤ) : ℤ :=
  round ((100 - (b : ℚ)) * (11 / 10))

/-- The displayed first-half BTTS Yes percentage: `fhBttsYesRaw` as
clamped by `pct`. -/
def fhBttsYes (b : ℤ) : ℤ :=
  max 0 (min 100 (fhBttsYesRaw b))

/-- The displayed first-half BTTS No percentage: `fhBttsNoRaw` as
clamped by `pct`. -/
def fhBttsNo (b : ℤ) : ℤ :=
  max 0 (min 100 (fhBttsNoRaw b))

/-- JSON values, as assembled by the route handler and sent with
`res.json`.  Only the constructors the response needs. -/
inductive Json where
  | str (s : String)
  | bool (b : Bool)
  | arr (xs : List Json)
  | obj (fields : List (String × Json))

/-- One combo / market entry object as pushed by
`composeDoubleChanceCombos` and listed in the tab arrays: the six fields
`outcome, probability, odds, market, suggestion, rationale`. -/
structure Combo where
  outcome : String
  probability : String
  odds : String
  market : String
  suggestion : String
  rationale : String
deriving DecidableEq, Repr

/-- Builds one entry object from its probability value, applying `pct`,
`makeOdds` and `suggest` to it, exactly as every object literal in the
source does. -/
def mkCombo (outcome : String) (p : ℤ) (market rationale : String) : Combo where
  outcome := outcome
  probability := pct (p : ℚ)
  odds := makeOdds (p : ℚ)
  market := market
  suggestion := suggest (p : ℚ)
  rationale := rationale

/-- The full JSON object of an entry (six fields). -/
def Combo.toJson (c : Combo) : Json :=
  Json.obj
    [("outcome", .str c.outcome), ("probability", .str c.probability),
     ("odds", .str c.odds), ("market", .str c.market),
     ("suggestion", .str c.suggestion), ("rationale", .str c.rationale)]

/-- The reduced JSON object used in `prediction.all.combos`
(`server.js` line 416): same entry without the `rationale` field. -/
def Combo.toJsonSlim (c : Combo) : Json :=
  Json.obj
    [("outcome", .str c.outcome), ("probability", .str c.probability),
     ("odds", .str c.odds), ("market", .str c.market),
     ("suggestion", .str c.suggestion)]

/-- The goal lines iterated by the combo loop
(`const lines = [1.5, 2.5, 3.5, 4.5, 5.5]`). -/
inductive Line where
  | l15
  | l25
  | l35
  | l45
  | l55
deriving DecidableEq, Repr

/-- The display label of a combo goal line. -/
def Line.label : Line → String
  | .l15 => "1.5"
  | .l25 => "2.5"
  | .l35 => "3.5"
  | .l45 => "4.5"
  | .l55 => "5.5"

/-- Lookup `totals.over[l]` / `totals.under[l]` for a combo goal line. -/
def GoalLines.get (g : GoalLines) : Line → ℤ
  | .l15 => g.l15
  | .l25 => g.l25
  | .l35 => g.l35
  | .l45 => g.l45
  | .l55 => g.l55

/-- The double-chance keys iterated by the combo loops
(`["1X", "X2", "12"]`). -/
inductive DCKey where
  | oneX
  | xTwo
  | oneTwo
deriving DecidableEq, Repr

/-- The display label of a double-chance key. -/
def DCKey.label : DCKey → String
  | .oneX => "1X"
  | .xTwo => "X2"
  | .oneTwo => "12"

/-- Lookup `dc[key]`. -/
def DC.get (d : DC) : DCKey → ℤ
  | .oneX => d.oneX
  | .xTwo => d.xTwo
  | .oneTwo => d.oneTwo

/-- `composeDoubleChanceCombos(dc, totals, btts)` (`server.js` lines
140-225): double chance × Over/Under, double chance × BTTS, BTTS ×
Over/Under 2.5 and the No Team To Score special, in push order. -/
def composeDoubleChanceCombos (dc : DC) (totals : Totals) (btts : ℤ) : List Combo :=
  let lines : List Line := [.l15, .l25, .l35, .l45, .l55]
  let keys : List DCKey := [.oneX, .xTwo, .oneTwo]
  let dcGoals : List Combo :=
    keys.flatMap fun key =>
      lines.flatMap fun l =>
        let pOver := round ((dc.get key : ℚ) * (5 / 10) + (totals.over.get l : ℚ) * (5 / 10))
        let pUnder := round ((dc.get key : ℚ) * (5 / 10) + (totals.under.get l : ℚ) * (5 / 10))
        [mkCombo ("Double Chance " ++ key.label ++ " + Over " ++ l.label) pOver
          "double chance + goals"
          ("Combined stability from " ++ key.label ++ " with scoring pace over " ++ l.label ++ "."),
         mkCombo ("Double Chance " ++ key.label ++ " + Under " ++ l.label) pUnder
          "double chance + goals"
          ("Protection via " ++ key.label ++ " with conservative totals under " ++ l.label ++ ".")]
  let pYes := round ((btts : ℚ) * (6 / 10) + 60 * (4 / 10))
  let pNo := max 0 (100 - pYes)
  let dcBtts : List Combo :=
    keys.flatMap fun key =>
      let pComboYes := round ((dc.get key : ℚ) * (5 / 10) + (pYes : ℚ) * (5 / 10))
      let pComboNo := round ((dc.get key : ℚ) * (5 / 10) + (pNo : ℚ) * (5 / 10))
      [mkCombo ("Double Chance " ++ key.label ++ " + BTTS Yes") pComboYes
        "double chance + BTTS"
        ("Balanced exposure via " ++ key.label ++ " with mutual scoring likelihood."),
       mkCombo ("Double Chance " ++ key.label ++ " + BTTS No") pComboNo
        "double chance + BTTS"
        ("Conservative approach: " ++ key.label ++ " cover with single‑sided control expected.")]
  let over25 := totals.over.l25
  let under25 := totals.under.l25
  let bttsOver25 := round ((btts : ℚ) * (55 / 100) + (over25 : ℚ) * (45 / 100))
  let bttsUnder25 := round ((btts : ℚ) * (45 / 100) + (under25 : ℚ) * (55 / 100))
  let noTeamScore := round ((max 0 (100 - btts) : ℤ) * (8 / 10 : ℚ) + (under25 : ℚ) * (2 / 10))
  dcGoals ++ dcBtts ++
    [mkCombo "BTTS Yes + Over 2.5" bttsOver25 "BTTS + goals"
      "Mutual scoring with elevated total pace beyond 2.5.",
     mkCombo "BTTS Yes + Under 2.5" bttsUnder25 "BTTS + goals"
      "Rare scenario where both score yet totals cap below three.",
     mkCombo "No Team To Score" noTeamScore "specials"
      "Requires suppressed creation and finishing; lower likelihood."]

/-- A JavaScript numeric expression value: a finite number, `NaN`, or
`undefined` (the value of a property access on an object that lacks the
key).  Used to model `adjustProbabilities` when a required market key is
missing from a provider object. -/
inductive JSVal where
  | num (q : ℚ)
  | nan
  | undef
deriving DecidableEq, Repr

/-- Property access on a provider object whose key may be missing:
a present value is a number, a missing one is `undefined`. -/
def toVal : Option ℤ → JSVal
  | none => JSVal.undef
  | some n => JSVal.num (n : ℚ)

/-- JavaScript multiplication by a finite number: `undefined * c` and
`NaN * c` are `NaN`. -/
def jsMul : JSVal → ℚ → JSVal
  | JSVal.num q, c => JSVal.num (q * c)
  | JSVal.nan, _ => JSVal.nan
  | JSVal.undef, _ => JSVal.nan

/-- JavaScript addition: any non-number operand yields `NaN`. -/
def jsAdd : JSVal → JSVal → JSVal
  | JSVal.num a, JSVal.num b => JSVal.num (a + b)
  | _, _ => JSVal.nan

/-- `Math.round` in JavaScript: `NaN` (and `undefined`) map to `NaN`. -/
def jsRound : JSVal → JSVal
  | JSVal.num q => JSVal.num ((round q : ℤ) : ℚ)
  | _ => JSVal.nan

/-- The `blend` arrow of `adjustProbabilities` evaluated under
JavaScript semantics on possibly-missing operands:
`Math.round(m * weightModel + e * weightExpert)`. -/
def blendJS (m e : JSVal) : JSVal :=
  jsRound (jsAdd (jsMul m weightModel) (jsMul e weightExpert))

/-- The hardcoded baseline AI anchors of the `/predict` route
(`server.js` lines 242-251). -/
def aiBase : Anchors where
  homeWin := 31
  draw := 29
  awayWin := 40
  btts := 65
  over25 := 58
  firstHalfGoals := 50
  cornersHigh := 42
  cardsHigh := 58

/-- `fetchExpertData(home, away, league)` (`server.js` lines 39-56): the
stub ignores its arguments and returns this fixed object. -/
def fetchExpertData : ExpertData where
  expert_win := 36
  expert_draw := 29
  expert_away := 35
  expert_btts := 66
  expert_over25 := 59
  expert_first_half_goals := 52
  expert_corners_high := 45
  expert_cards_high := 58
  expert_notes :=
    ["Pressing intensity suggests open transitions.",
     "Set‑piece threat elevates corner totals.",
     "Midfield duels increase booking risk."]

/-- One six-field entry object in a tab array. -/
def entry (outcome : String) (p : ℤ) (market rationale : String) : Json :=
  (mkCombo outcome p market rationale).toJson

/-- One four-field entry object of `prediction.all.fulltime_result`. -/
def entry4 (outcome : String) (p : ℤ) : Json :=
  Json.obj
    [("outcome", .str outcome), ("probability", .str (pct p)),
     ("odds", .str (makeOdds p)), ("suggestion", .str (suggest p))]

/-- The `legend` object (`server.js` lines 485-499). -/
def legendJson : Json :=
  Json.obj
    [("fulltime_result", .str "1X2 market: Home Win, Draw, Away Win."),
     ("double_chance", .str "Cover two outcomes: 1X (Home or Draw), X2 (Draw or Away), 12 (Home or Away)."),
     ("double_chance_btts", .str "Double Chance combined with Both Teams To Score (Yes/No)."),
     ("double_chance_goals", .str "Double Chance combined with Over/Under goals thresholds (1.5–5.5)."),
     ("btts_goals", .str "Both Teams To Score combined with Over/Under 2.5."),
     ("no_team_to_score", .str "Special case: neither team scores."),
     ("over_under_goals", .str "Total goals thresholds: 0.5, 1.5, 2.5, 3.5, 4.5, 5.5."),
     ("halftime_markets", .str "First-half markets: 1H 1X2, 1H Double Chance, 1H Over/Under, 1H BTTS."),
     ("corners", .str "Corner markets: FT totals, HT totals, team corners."),
     ("cards", .str "Card markets: HT/FT totals, player bookings."),
     ("handicaps", .str "Asian and European handicap lines."),
     ("confidence_scale", .str "High ≥ 70%, Medium 50–69%, Low < 50%."),
     ("methodology", .str "Blended AI anchors + expert consensus (not live yet). Replace stubs with real APIs to go live.")]

/-- The success body of `POST /predict` (`server.js` lines 241-514): the
spread of the `prediction` aggregate followed by the tab arrays, the
combos, the expert notes and the legend, exactly as passed to
`res.json`. -/
def predictionJson (homeTeam awayTeam league : String) (expertData : ExpertData) : Json :=
  let adjusted := adjustProbabilities aiBase expertData
  let totals := deriveTotals adjusted
  let firstHalf := deriveFirstHalf adjusted
  let fulltime := deriveFulltime adjusted
  let combos := composeDoubleChanceCombos fulltime.dc totals adjusted.btts
  let fh1X := min 100 (firstHalf.fh1x2.home + firstHalf.fh1x2.draw)
  let fhX2 := min 100 (firstHalf.fh1x2.draw + firstHalf.fh1x2.away)
  let htCardsOver := round ((adjusted.cardsHigh : ℚ) * (92 / 100))
  let htCardsUnder := round (100 - (adjusted.cardsHigh : ℚ) * (92 / 100))
  let asianHome := round ((fulltime.oneX2.home : ℚ) * (105 / 100))
  let asianAway := round ((fulltime.oneX2.away : ℚ) * (105 / 100))
  let goals : List Json :=
    [entry "Over 0.5 Goals" totals.over.l05 "goals"
      "High over trend from AI totals anchor; experts expect early chances.",
     entry "Under 0.5 Goals" totals.under.l05 "goals"
      "Clean‑sheet stalemate requires suppressed chance quality.",
     entry "Over 1.5 Goals" totals.over.l15 "goals"
      "Two‑goal threshold likely given shot volume and conversion rates.",
     entry "Under 1.5 Goals" totals.under.l15 "goals"
      "Requires slow tempo and compactness; lower consensus.",
     entry "Over 2.5 Goals" totals.over.l25 "goals"
      "Primary total benchmark combining model baseline and expert tempo.",
     entry "Under 2.5 Goals" totals.under.l25 "goals"
      "Live if finishing drops or game state slows; less favored.",
     entry "Over 3.5 Goals" totals.over.l35 "goals"
      "Higher variance outcome supported by recent defensive metrics.",
     entry "Under 3.5 Goals" totals.under.l35 "goals"
      "If control and compactness dominate, totals cap below four.",
     entry "Over 4.5 Goals" totals.over.l45 "goals"
      "Aggressive scoring scenario requires early goal timing alignment.",
     entry "Under 4.5 Goals" totals.under.l45 "goals"
      "Base expectation below five; safer consensus.",
     entry "Over 5.5 Goals" totals.over.l55 "goals"
      "Rare shootout scenario with chaotic game states.",
     entry "Under 5.5 Goals" totals.under.l55 "goals"
      "Standard progression keeps totals below six almost always.",
     entry "BTTS Yes" adjusted.btts "goals"
      "Both teams generate on‑target chances; mutual scoring likely.",
     entry "BTTS No" (100 - adjusted.btts) "goals"
      "Single‑sided control or poor finishing required.",
     entry "Exactly 2 Goals" 25 "goals"
      "Mode near two given midline totals; fragile to early goals.",
     entry "Exactly 3 Goals" 20 "goals"
      "Secondary mode near three with BTTS support."]
  let halftime : List Json :=
    [entry "1st Half Home" firstHalf.fh1x2.home "halftime 1X2"
      "Early pressure pattern favors home starts.",
     entry "1st Half Draw" firstHalf.fh1x2.draw "halftime 1X2"
      "Cagey opening expected; compact mid‑blocks.",
     entry "1st Half Away" firstHalf.fh1x2.away "halftime 1X2"
      "Away transitions viable early via flanks.",
     entry "1st Half 1X (Home or Draw)" fh1X "halftime double chance"
      "Conservative cover for early control.",
     entry "1st Half X2 (Draw or Away)" fhX2 "halftime double chance"
      "Protection against swift transitions.",
     entry "1st Half Over 0.5 Goals" firstHalf.over05 "halftime goals"
      "Strong chance of at least one before the break.",
     entry "1st Half Under 0.5 Goals" firstHalf.under05 "halftime goals"
      "Requires suppressed finishing; low consensus.",
     entry "1st Half Over 1.5 Goals" firstHalf.over15 "halftime goals"
      "Two before HT plausible in high‑tempo scenarios.",
     entry "1st Half Under 1.5 Goals" firstHalf.under15 "halftime goals"
      "Base expectation leans under unless early momentum spikes.",
     entry "1st Half BTTS Yes" (fhBttsYesRaw adjusted.btts) "halftime BTTS"
      "Creation emerges early; conversion may lag.",
     entry "1st Half BTTS No" (fhBttsNoRaw adjusted.btts) "halftime BTTS"
      "Single‑sided control more common in first halves."]
  let corners : List Json :=
    [entry "FT Over 9.5 Corners" adjusted.cornersHigh "corners total"
      "Crossing volume and set‑piece frequency indicate high corners.",
     entry "FT Under 9.5 Corners" (100 - adjusted.cornersHigh) "corners total"
      "Requires lower width and fewer blocked shots.",
     entry "1H Over 4.5 Corners" 49 "corners halftime"
      "Early width utilization drives first‑half corners.",
     entry "1H Under 4.5 Corners" 51 "corners halftime"
      "Compact shapes reduce early corner generation.",
     entry "Home Over 4.5 Corners" 51 "corners team"
      "Home crossing preference and overlap patterns.",
     entry "Away Over 4.5 Corners" 47 "corners team"
      "Away counters force blocks and saves."]
  let cards : List Json :=
    [entry "HT Over 1.5 Cards" htCardsOver "cards halftime"
      "Aggressive pressing leads to tactical fouls pre‑HT.",
     entry "HT Under 1.5 Cards" htCardsUnder "cards halftime"
      "Disciplined openings keep bookings low.",
     entry "FT Over 3.5 Cards" adjusted.cardsHigh "cards total"
      "Match tension elevates booking risk over 90 minutes.",
     entry "FT Under 3.5 Cards" (100 - adjusted.cardsHigh) "cards total"
      "Cleaner game with fewer disruptions and set‑pieces.",
     entry "Player A booked" 40 "player cards"
      "Role matched to defensive duels; historical booking rate near 0.3 per game."]
  let handicaps : List Json :=
    [entry "Asian Home -0.5" asianHome "asian handicap"
      "Home edge aligned with win‑only condition; fair price.",
     entry "Asian Away +0.5" asianAway "asian handicap"
      "Underdog protection; value if transitions bite.",
     entry "Home -1 (European)" 33 "european handicap"
      "Requires two‑goal margin; achievable with early lead.",
     entry "Away +1 (European)" 48 "european handicap"
      "Coverage against narrow home win; steady consensus.",
     entry "Draw Handicap" 19 "european handicap"
      "Balanced outcome around single‑goal margins.",
     entry "Double Chance 1X" fulltime.dc.oneX "double chance"
      "Safest protection leveraging home/draw probabilities.",
     entry "Double Chance X2" fulltime.dc.xTwo "double chance"
      "Good cover if away transitions outperform.",
     entry "Double Chance 12" fulltime.dc.oneTwo "double chance"
      "Win either way; strong if draw probability suppressed."]
  Json.obj
    [("match", .str (homeTeam ++ " vs " ++ awayTeam ++ " (" ++ league ++ ")")),
     ("source", .str "Blended AI model + expert consensus"),
     ("methodology", .str "Probabilities blended from AI baselines and expert tempo/game‑state assessments. Not live yet — replace stubs with real APIs to go live."),
     ("all", Json.obj
       [("fulltime_result", .arr
          [entry4 "Home Win" fulltime.oneX2.home,
           entry4 "Draw" fulltime.oneX2.draw,
           entry4 "Away Win" fulltime.oneX2.away]),
        ("double_chance", Json.obj
          [("1X", .str (pct fulltime.dc.oneX)),
           ("X2", .str (pct fulltime.dc.xTwo)),
           ("12", .str (pct fulltime.dc.oneTwo))]),
        ("over_under_goals", Json.obj
          [("Over 0.5", .str (pct totals.over.l05)),
           ("Over 1.5", .str (pct totals.over.l15)),
           ("Over 2.5", .str (pct totals.over.l25)),
           ("Over 3.5", .str (pct totals.over.l35)),
           ("Over 4.5", .str (pct totals.over.l45)),
           ("Over 5.5", .str (pct totals.over.l55)),
           ("Under 0.5", .str (pct totals.under.l05)),
           ("Under 1.5", .str (pct totals.under.l15)),
           ("Under 2.5", .str (pct totals.under.l25)),
           ("Under 3.5", .str (pct totals.under.l35)),
           ("Under 4.5", .str (pct totals.under.l45)),
           ("Under 5.5", .str (pct totals.under.l55))]),
        ("halftime_markets", Json.obj
          [("1H 1X2", Json.obj
             [("Home", .str (pct firstHalf.fh1x2.home)),
              ("Draw", .str (pct firstHalf.fh1x2.draw)),
              ("Away", .str (pct firstHalf.fh1x2.away))]),
           ("1H Double Chance", Json.obj
             [("1X", .str (pct fh1X)), ("X2", .str (pct fhX2))]),
           ("1H Over/Under", Json.obj
             [("Over 0.5", .str (pct firstHalf.over05)),
              ("Over 1.5", .str (pct firstHalf.over15)),
              ("Under 0.5", .str (pct firstHalf.under05)),
              ("Under 1.5", .str (pct firstHalf.under15))]),
           ("1H BTTS", Json.obj
             [("Yes", .str (pct (fhBttsYesRaw adjusted.btts))),
              ("No", .str (pct (fhBttsNoRaw adjusted.btts)))])]),
        ("corners", Json.obj
          [("FT Over 9.5", .str (pct adjusted.cornersHigh)),
           ("FT Under 9.5", .str (pct (100 - adjusted.cornersHigh))),
           ("1H Over 4.5", .str "49%"),
           ("1H Under 4.5", .str "51%"),
           ("Home Over 4.5", .str "51%"),
           ("Away Over 4.5", .str "47%")]),
        ("cards", Json.obj
          [("HT Over 1.5", .str (pct htCardsOver)),
           ("HT Under 1.5", .str (pct htCardsUnder)),
           ("FT Over 3.5", .str (pct adjusted.cardsHigh)),
           ("FT Under 3.5", .str (pct (100 - adjusted.cardsHigh)))]),
        ("handicap", Json.obj
          [("Asian Home -0.5", .str (pct asianHome)),
           ("Asian Away +0.5", .str (pct asianAway)),
           ("Home -1", .str "33%"),
           ("Away +1", .str "48%"),
           ("Draw Handicap", .str "19%")]),
        ("combos", .arr (combos.map Combo.toJsonSlim)),
        ("scorers", .arr [.str "Likely home striker (~45–50%)", .str "Away winger (~35–40%)"]),
        ("halftime_fulltime", .str "Home/Home (~25–28%)")]),
     ("popular", Json.obj
       [("double_chance", .str "1X (Home or Draw safest ~60%)"),
        ("double_chance_btts", .str "1X + BTTS Yes (~40–45%)"),
        ("over_2_5_goals", .str (pct totals.over.l25)),
        ("btts", .str ("Yes (" ++ pct adjusted.btts ++ ")"))]),
     ("winner", Json.obj
       [("halftime_fulltime", .str "Home/Home (~25–28%)"),
        ("double_chance", .arr [.str "1X", .str "X2", .str "12"])]),
     ("bookings", Json.obj
       [("halftime", Json.obj
          [("Over 1.5", .str (pct htCardsOver)), ("Under 1.5", .str (pct htCardsUnder))]),
        ("fulltime", Json.obj
          [("Over 3.5", .str (pct adjusted.cardsHigh)),
           ("Under 3.5", .str (pct (100 - adjusted.cardsHigh)))]),
        ("player_cards", .arr [.str "Player A booked", .str "Player B sent off"])]),
     ("goals_detail", Json.obj
       [("team_goals", Json.obj
          [("Home Over 1.5", .str "62%"), ("Away Over 1.5", .str "55%")]),
        ("exact_goals", Json.obj
          [("Exactly 2", .str "25%"), ("Exactly 3", .str "20%")]),
        ("btts", .str ("Yes (" ++ pct adjusted.btts ++ ")"))]),
     ("halves", Json.obj
       [("halftime_result", .str "Home ~35%"),
        ("second_half_result", .str "Away ~40%"),
        ("halftime_goals", Json.obj
          [("Over 1.5", .str "48%"), ("Under 1.5", .str "52%")])]),
     ("corners_detail", Json.obj
       [("total", Json.obj
          [("Over 9.5", .str (pct adjusted.cornersHigh)),
           ("Under 9.5", .str (pct (100 - adjusted.cornersHigh)))]),
        ("team", Json.obj
          [("Home Over 4.5", .str "51%"), ("Away Over 4.5", .str "47%")]),
        ("handicap", Json.obj
          [("Home +2", .str "55%"), ("Away +2", .str "45%")])]),
     ("scores", Json.obj
       [("correct_score", .arr [.str "1–0", .str "2–1", .str "2–2"]),
        ("scorecast", .str "2–1 + home striker"),
        ("multiscore", .str "2–3 goals total")]),
     ("handicaps_detail", Json.obj
       [("asian", Json.obj
          [("Home -1", .str "33%"), ("Away +1", .str "48%")]),
        ("european", Json.obj [("Home win by 2", .str "22%")])]),
     ("teams", Json.obj
       [("specials", .arr [.str "Home to score first", .str "Away to win both halves"]),
        ("totals", Json.obj
          [("Home goals", .str "62%"), ("Away goals", .str "55%")]),
        ("clean_sheet", Json.obj
          [("Home clean sheet", .str "40%"), ("Away clean sheet", .str "35%")])]),
     ("player_specials", Json.obj
       [("anytime_scorer", .arr [.str "Home striker", .str "Away winger"]),
        ("first_scorer", .str "Home striker"),
        ("last_scorer", .str "Away winger"),
        ("player_cards", .arr [.str "Player A booked", .str "Player B sent off"])]),
     ("goals", .arr goals),
     ("halftime", .arr halftime),
     ("corners", .arr corners),
     ("cards", .arr cards),
     ("handicaps", .arr handicaps),
     ("combos", .arr (combos.map Combo.toJson)),
     ("expert_notes", .arr (expertData.expert_notes.map Json.str)),
     ("legend", legendJson)]

/-- Request body of `POST /predict`: the three fields destructured from
`req.body`; `none` models an absent property. -/
structure PredictBody where
  homeTeam : Option String
  awayTeam : Option String
  league : Option String
deriving DecidableEq, Repr

/-- JavaScript truthiness of a possibly-absent string field: absent
(`undefined`) and the empty string are falsy. -/
def truthy : Option String → Bool
  | none => false
  | some s => !(s == "")

/-- The 400 body sent on missing fields (`server.js` lines 235-238). -/
def missingFieldsJson : Json :=
  Json.obj
    [("success", .bool false),
     ("error", .str "Missing required fields: homeTeam, awayTeam, league")]

/-- The `POST /predict` handler (`server.js` lines 230-518), as a
function of the request body and of the data returned by the expert
provider: result is the HTTP status code and the JSON body.  The
handler is a pure function of these two arguments — the source consults
no clock, randomness or mutable state. -/
def predictHandler (body : PredictBody) (expertData : ExpertData) : Nat × Json :=
  if !truthy body.homeTeam || !truthy body.awayTeam || !truthy body.league then
    (400, missingFieldsJson)
  else
    (200, predictionJson (body.homeTeam.getD "") (body.awayTeam.getD "")
      (body.league.getD "") expertData)

/-- The deployed route: the handler applied to the `fetchExpertData`
stub, as in `server.js` line 253. -/
def predictRoute (body : PredictBody) : Nat × Json :=
  predictHandler body fetchExpertData

/-- All eight anchor values lie in `[0,100]`. -/
def Anchors.InRange (a : Anchors) : Prop :=
  0 ≤ a.homeWin ∧ a.homeWin ≤ 100 ∧ 0 ≤ a.draw ∧ a.draw ≤ 100 ∧
  0 ≤ a.awayWin ∧ a.awayWin ≤ 100 ∧ 0 ≤ a.btts ∧ a.btts ≤ 100 ∧
  0 ≤ a.over25 ∧ a.over25 ≤ 100 ∧ 0 ≤ a.firstHalfGoals ∧ a.firstHalfGoals ≤ 100 ∧
  0 ≤ a.cornersHigh ∧ a.cornersHigh ≤ 100 ∧ 0 ≤ a.cardsHigh ∧ a.cardsHigh ≤ 100

/-- All eight expert market values lie in `[0,100]`. -/
def ExpertData.InRange (e : ExpertData) : Prop :=
  0 ≤ e.expert_win ∧ e.expert_win ≤ 100 ∧ 0 ≤ e.expert_draw ∧ e.expert_draw ≤ 100 ∧
  0 ≤ e.expert_away ∧ e.expert_away ≤ 100 ∧ 0 ≤ e.expert_btts ∧ e.expert_btts ≤ 100 ∧
  0 ≤ e.expert_over25 ∧ e.expert_over25 ≤ 100 ∧
  0 ≤ e.expert_first_half_goals ∧ e.expert_first_half_goals ≤ 100 ∧
  0 ≤ e.expert_corners_high ∧ e.expert_corners_high ≤ 100 ∧
  0 ≤ e.expert_cards_high ∧ e.expert_cards_high ≤ 100

instance (a : Anchors) : Decidable a.InRange := by
  unfold Anchors.InRange
  infer_instance

instance (e : ExpertData) : Decidable e.InRange := by
  unfold ExpertData.InRange
  infer_instance

/-- The expert values of the end-to-end Burnley vs Chelsea scenario
(`expert_win:35, expert_draw:30, expert_away:35, expert_btts:68,
expert_over25:60, ...`); the remaining fields take the stub's values. -/
def burnleyExpert : ExpertData where
  expert_win := 35
  expert_draw := 30
  expert_away := 35
  expert_btts := 68
  expert_over25 := 60
  expert_first_half_goals := 52
  expert_corners_high := 45
  expert_cards_high := 58
  expert_notes := []

/-!
## Helper lemmas

Evaluation and monotonicity facts about `round : ℚ → ℤ` (which is
`⌊x + 1/2⌋`, exactly JavaScript's `Math.round`), and interval facts
about `blend`.
-/

lemma round_eq_of {x : ℚ} {n : ℤ} (h1 : (n : ℚ) ≤ x + 1 / 2) (h2 : x + 1 / 2 < (n : ℚ) + 1) :
    round x = n := by
  rw [round_eq]
  exact Int.floor_eq_iff.mpr ⟨by exact_mod_cast h1, by exact_mod_cast h2⟩

lemma round_mono_q {x y : ℚ} (h : x ≤ y) : round x ≤ round y := by
  rw [round_eq, round_eq]
  exact Int.floor_mono (by linarith)

lemma int_le_round {n : ℤ} {x : ℚ} (h : (n : ℚ) ≤ x) : n ≤ round x := by
  rw [round_eq]
  exact Int.le_floor.mpr (by linarith)

lemma round_le_int {n : ℤ} {x : ℚ} (h : x ≤ (n : ℚ)) : round x ≤ n := by
  rw [round_eq]
  exact Int.lt_add_one_iff.mp (Int.floor_lt.mpr (by push_cast; linarith))

lemma blend_ge_min (m e : ℤ) : min m e ≤ blend m e := by
  simp only [blend]
  apply int_le_round
  rcases le_total m e with h | h
  · rw [min_eq_left h]
    have hc : (m : ℚ) ≤ (e : ℚ) := by exact_mod_cast h
    rw [weightModel, weightExpert]; linarith
  · rw [min_eq_right h]
    have hc : (e : ℚ) ≤ (m : ℚ) := by exact_mod_cast h
    rw [weightModel, weightExpert]; linarith

lemma blend_le_max (m e : ℤ) : blend m e ≤ max m e := by
  simp only [blend]
  apply round_le_int
  rcases le_total m e with h | h
  · rw [max_eq_right h]
    have hc : (m : ℚ) ≤ (e : ℚ) := by exact_mod_cast h
    rw [weightModel, weightExpert]; linarith
  · rw [max_eq_left h]
    have hc : (e : ℚ) ≤ (m : ℚ) := by exact_mod_cast h
    rw [weightModel, weightExpert]; linarith

lemma blend_range_block {m e : ℤ} (h0m : 0 ≤ m) (h1m : m ≤ 100) (h0e : 0 ≤ e) (h1e : e ≤ 100) :
    min m e ≤ blend m e ∧ blend m e ≤ max m e ∧ 0 ≤ blend m e ∧ blend m e ≤ 100 := by
  have h := blend_ge_min m e
  have h' := blend_le_max m e
  omega

/-!
## Claim theorems
-/

/-- C1.  For every pair of anchor sets, the blender computes, per market
key, `round(baseline[k]*0.6 + expert[k]*0.4)`; in particular, with
baseline values homeWin=31, draw=29, awayWin=40 (the `aiBase` values)
and expert values win=35, draw=30, away=35 (the Burnley vs Chelsea
scenario), the blended result has homeWin=33, draw=29, awayWin=38. -/
theorem blend_formula_and_example :
    (∀ (d : Anchors) (e : ExpertData),
      (adjustProbabilities d e).homeWin = round ((d.homeWin : ℚ) * (6 / 10) + (e.expert_win : ℚ) * (4 / 10)) ∧
      (adjustProbabilities d e).draw = round ((d.draw : ℚ) * (6 / 10) + (e.expert_draw : ℚ) * (4 / 10)) ∧
      (adjustProbabilities d e).awayWin = round ((d.awayWin : ℚ) * (6 / 10) + (e.expert_away : ℚ) * (4 / 10)) ∧
      (adjustProbabilities d e).btts = round ((d.btts : ℚ) * (6 / 10) + (e.expert_btts : ℚ) * (4 / 10)) ∧
      (adjustProbabilities d e).over25 = round ((d.over25 : ℚ) * (6 / 10) + (e.expert_over25 : ℚ) * (4 / 10)) ∧
      (adjustProbabilities d e).firstHalfGoals = round ((d.firstHalfGoals : ℚ) * (6 / 10) + (e.expert_first_half_goals : ℚ) * (4 / 10)) ∧
      (adjustProbabilities d e).cornersHigh = round ((d.cornersHigh : ℚ) * (6 / 10) + (e.expert_corners_high : ℚ) * (4 / 10)) ∧
      (adjustProbabilities d e).cardsHigh = round ((d.cardsHigh : ℚ) * (6 / 10) + (e.expert_cards_high : ℚ) * (4 / 10))) ∧
    (adjustProbabilities aiBase burnleyExpert).homeWin = 33 ∧
    (adjustProbabilities aiBase burnleyExpert).draw = 29 ∧
    (adjustProbabilities aiBase burnleyExpert).awayWin = 38 := by
  refine ⟨fun d e => ⟨rfl, rfl, rfl, rfl, rfl, rfl, rfl, rfl⟩, ?_, ?_, ?_⟩
  · show blend 31 35 = 33
    rw [blend]
    apply round_eq_of <;> norm_num [weightModel, weightExpert]
  · show blend 29 30 = 29
    rw [blend]
    apply round_eq_of <;> norm_num [weightModel, weightExpert]
  · show blend 40 35 = 38
    rw [blend]
    apply round_eq_of <;> norm_num [weightModel, weightExpert]

/-- C2.  Whenever the request body misses one of `homeTeam`, `awayTeam`,
`league` or supplies it as an empty string (i.e. the field is falsy),
the `/predict` handler returns status 400 with the JSON body
`{success: false, error: "Missing required fields: ..."}` and computes
no prediction (the error object is the entire response). -/
theorem predict_missing_field_400 :
    ∀ (body : PredictBody) (expertData : ExpertData),
      (truthy body.homeTeam = false ∨ truthy body.awayTeam = false ∨ truthy body.league = false) →
      predictHandler body expertData =
        (400, Json.obj
          [("success", Json.bool false),
           ("error", Json.str "Missing required fields: homeTeam, awayTeam, league")]) := by
  intro body expertData h
  have : (!truthy body.homeTeam || !truthy body.awayTeam || !truthy body.league) = true := by
    rcases h with h | h | h <;> simp [h]
  rw [predictHandler, if_pos this]
  rfl

/-- Witness for C2: the spec scenario `{homeTeam: "X"}` with `awayTeam`
and `league` absent. -/
theorem predict_missing_field_400_witness :
    (truthy (some "X") = false ∨ truthy none = false ∨ truthy none = false) ∧
    predictHandler ⟨some "X", none, none⟩ fetchExpertData =
      (400, Json.obj
        [("success", Json.bool false),
         ("error", Json.str "Missing required fields: homeTeam, awayTeam, league")]) :=
  ⟨Or.inr (Or.inl rfl),
   predict_missing_field_400 ⟨some "X", none, none⟩ fetchExpertData (Or.inr (Or.inl rfl))⟩

/-- C8.  If a required market key is missing from either provider
object, the blend arrow of `adjustProbabilities` evaluates, under
JavaScript semantics, to `NaN` (`undefined * 0.6` is `NaN`, which
propagates through `+` and `Math.round`): the computation is total and
produces `NaN` rather than raising any `MissingMarketKey` error.  On
present keys it agrees with `blend`. -/
theorem missing_key_blends_to_nan :
    (∀ (m e : Option ℤ), (m = none ∨ e = none) → blendJS (toVal m) (toVal e) = JSVal.nan) ∧
    (∀ a b : ℤ, blendJS (toVal (some a)) (toVal (some b)) = JSVal.num ((blend a b : ℤ) : ℚ)) := by
  constructor
  · intro m e h
    cases m <;> cases e <;> simp_all [blendJS, toVal, jsMul, jsAdd, jsRound]
  · intro a b
    simp [blendJS, toVal, jsMul, jsAdd, jsRound, blend]

/-- Witness for C8: a baseline object whose `homeWin` key is missing,
blended against the expert value 35, yields `NaN`. -/
theorem missing_key_blends_to_nan_witness :
    ((none : Option ℤ) = none ∨ (some (35 : ℤ)) = none) ∧
    blendJS (toVal none) (toVal (some 35)) = JSVal.nan :=
  ⟨Or.inl rfl, missing_key_blends_to_nan.1 none (some 35) (Or.inl rfl)⟩

/-- C9.  The `/predict` pipeline is deterministic: as a function of the
request body and of the (stubbed) expert provider data it consults no
randomness, clock or mutable state, so two runs on identical input and
identical provider data return identical responses; the deployed route
is the handler applied to the constant `fetchExpertData` stub. -/
theorem predict_deterministic :
    ∀ (b₁ b₂ : PredictBody) (e₁ e₂ : ExpertData), b₁ = b₂ → e₁ = e₂ →
      predictHandler b₁ e₁ = predictHandler b₂ e₂ ∧
      predictRoute b₁ = predictRoute b₂ := by
  intro b₁ b₂ e₁ e₂ hb he
  rw [hb, he]
  exact ⟨rfl, rfl⟩

/-- Witness for C9: two identical Burnley vs Chelsea requests against
the stubbed provider produce the same response. -/
theorem predict_deterministic_witness :
    (PredictBody.mk (some "Burnley") (some "Chelsea") (some "Premier League") =
      PredictBody.mk (some "Burnley") (some "Chelsea") (some "Premier League")) ∧
    predictHandler (PredictBody.mk (some "Burnley") (some "Chelsea") (some "Premier League")) fetchExpertData =
      predictHandler (PredictBody.mk (some "Burnley") (some "Chelsea") (some "Premier League")) fetchExpertData :=
  ⟨rfl,
   (predict_deterministic
     (PredictBody.mk (some "Burnley") (some "Chelsea") (some "Premier League"))
     (PredictBody.mk (some "Burnley") (some "Chelsea") (some "Premier League"))
     fetchExpertData fetchExpertData rfl rfl).1⟩

/-- C10.  The first-half BTTS pair is Yes = `round(btts*0.7)` and
No = `clamp(round((100-btts)*1.1), 0, 100)` (the clamp applied by
`pct`); at the anchor value btts = 50 — which lies in `[0,100]` — the
displayed percentages are Yes = 35 and No = 55, which do not sum to
100. -/
theorem fh_btts_pair_not_complementary :
    fhBttsYesRaw 50 = 35 ∧ fhBttsNo 50 = 55 ∧
    fhBttsYesRaw 50 + fhBttsNo 50 ≠ 100 ∧
    (0 : ℤ) ≤ 50 ∧ (50 : ℤ) ≤ 100 := by
  have hy : fhBttsYesRaw 50 = 35 := by
    rw [fhBttsYesRaw]
    apply round_eq_of <;> norm_num
  have hnraw : fhBttsNoRaw 50 = 55 := by
    rw [fhBttsNoRaw]
    apply round_eq_of <;> norm_num
  have hn : fhBttsNo 50 = 55 := by rw [fhBttsNo, hnraw]; rfl
  refine ⟨hy, hn, ?_, by norm_num, by norm_num⟩
  rw [hy, hn]
  norm_num

/-- C3 counterexample.  At the anchor value over25 = 100 (in `[0,100]`),
the derived Over 0.5 value is 112 and the clamped Under 0.5 value is 0,
so Under + Over = 112 ≠ 100: the claimed identity fails on the code for
large anchors. -/
theorem totals_sum_counterexample :
    (deriveTotals ⟨33, 29, 38, 65, 100, 51, 43, 58⟩).over.l05 = 112 ∧
    (deriveTotals ⟨33, 29, 38, 65, 100, 51, 43, 58⟩).under.l05 = 0 ∧
    (deriveTotals ⟨33, 29, 38, 65, 100, 51, 43, 58⟩).under.l05 +
      (deriveTotals ⟨33, 29, 38, 65, 100, 51, 43, 58⟩).over.l05 ≠ 100 := by
  refine ⟨rfl, rfl, by decide⟩

/-- C3 amended.  For every over25 anchor value in `[0,88]` — the range
on which no derived Over value exceeds 100 — the derived Under plus
Over equals exactly 100 on each of the six goal lines.  (Above 88 the
Over 0.5 formula `max(70, over25+12)` exceeds 100 while Under is
clamped at 0, and the sum exceeds 100.) -/
theorem totals_sum_amended :
    ∀ a : Anchors, 0 ≤ a.over25 → a.over25 ≤ 88 →
      (deriveTotals a).under.l05 + (deriveTotals a).over.l05 = 100 ∧
      (deriveTotals a).under.l15 + (deriveTotals a).over.l15 = 100 ∧
      (deriveTotals a).under.l25 + (deriveTotals a).over.l25 = 100 ∧
      (deriveTotals a).under.l35 + (deriveTotals a).over.l35 = 100 ∧
      (deriveTotals a).under.l45 + (deriveTotals a).over.l45 = 100 ∧
      (deriveTotals a).under.l55 + (deriveTotals a).over.l55 = 100 := by
  intro a h0 h1
  simp only [deriveTotals, overLines, underLines]
  omega

/-- Witness for the amended C3, at the baseline anchor over25 = 58. -/
theorem totals_sum_amended_witness :
    (0 ≤ aiBase.over25 ∧ aiBase.over25 ≤ 88) ∧
    ((deriveTotals aiBase).under.l05 + (deriveTotals aiBase).over.l05 = 100 ∧
     (deriveTotals aiBase).under.l15 + (deriveTotals aiBase).over.l15 = 100 ∧
     (deriveTotals aiBase).under.l25 + (deriveTotals aiBase).over.l25 = 100 ∧
     (deriveTotals aiBase).under.l35 + (deriveTotals aiBase).over.l35 = 100 ∧
     (deriveTotals aiBase).under.l45 + (deriveTotals aiBase).over.l45 = 100 ∧
     (deriveTotals aiBase).under.l55 + (deriveTotals aiBase).over.l55 = 100) :=
  ⟨⟨by decide, by decide⟩, totals_sum_amended aiBase (by decide) (by decide)⟩

/-- C4.  The displayed odds are `clamp(1/(p/100), 1.1, 10.0)` with `p`
first clamped to `[1,99]` (this is `makeOddsDec`), formatted to two
decimal digits (`makeOddsH` is the formatted value in hundredths); the
value always lies in `[1.10, 10.00]` and is non-increasing as the
probability increases. -/
theorem makeOdds_bounds_and_antitone :
    ∀ p q : ℚ, p ≤ q →
      makeOddsDec p = max (11 / 10) (min 10 (1 / (max 1 (min 99 p) / 100))) ∧
      makeOdds p = fmt2 (makeOddsH p) ∧
      110 ≤ makeOddsH p ∧ makeOddsH p ≤ 1000 ∧
      makeOddsH q ≤ makeOddsH p := by
  intro p q hpq
  have hdec_lb : ∀ r : ℚ, 11 / 10 ≤ makeOddsDec r := fun r => le_max_left _ _
  have hdec_ub : ∀ r : ℚ, makeOddsDec r ≤ 10 :=
    fun r => max_le (by norm_num) (min_le_left _ _)
  refine ⟨rfl, rfl, ?_, ?_, ?_⟩
  · rw [makeOddsH]
    apply int_le_round
    have := hdec_lb p
    push_cast
    linarith
  · rw [makeOddsH]
    apply round_le_int
    have := hdec_ub p
    push_cast
    linarith
  · rw [makeOddsH, makeOddsH]
    apply round_mono_q
    have hp_pos : (0 : ℚ) < max 1 (min 99 p) := lt_of_lt_of_le one_pos (le_max_left _ _)
    have hclamp : max 1 (min 99 p) ≤ max 1 (min 99 q) :=
      max_le_max le_rfl (min_le_min le_rfl hpq)
    have hinv : 1 / (max 1 (min 99 q) / 100) ≤ 1 / (max 1 (min 99 p) / 100) :=
      one_div_le_one_div_of_le (div_pos hp_pos (by norm_num))
        ((div_le_div_iff_of_pos_right (by norm_num)).mpr hclamp)
    have hmono : makeOddsDec q ≤ makeOddsDec p := by
      rw [makeOddsDec, makeOddsDec]
      exact max_le_max le_rfl (min_le_min le_rfl hinv)
    linarith

/-- Witness for C4, at the probabilities 30 and 60. -/
theorem makeOdds_bounds_and_antitone_witness :
    (30 : ℚ) ≤ 60 ∧
    (makeOddsDec 30 = max (11 / 10) (min 10 (1 / (max 1 (min 99 (30 : ℚ)) / 100))) ∧
     makeOdds 30 = fmt2 (makeOddsH 30) ∧
     110 ≤ makeOddsH 30 ∧ makeOddsH 30 ≤ 1000 ∧
     makeOddsH 60 ≤ makeOddsH 30) :=
  ⟨by norm_num, makeOdds_bounds_and_antitone 30 60 (by norm_num)⟩

/-- C5 counterexample.  At the anchor value over25 = 0 (in `[0,100]`)
the derived Over 2.5 value is 0 while the derived Over 3.5 value is 32:
the Over sequence increases from the 2.5 line to the 3.5 line, so it is
not non-increasing over the whole claimed anchor range. -/
theorem totals_monotone_counterexample :
    (deriveTotals ⟨0, 0, 0, 0, 0, 0, 0, 0⟩).over.l25 = 0 ∧
    (deriveTotals ⟨0, 0, 0, 0, 0, 0, 0, 0⟩).over.l35 = 32 ∧
    ¬ ((deriveTotals ⟨0, 0, 0, 0, 0, 0, 0, 0⟩).over.l35 ≤
        (deriveTotals ⟨0, 0, 0, 0, 0, 0, 0, 0⟩).over.l25) := by
  refine ⟨rfl, rfl, by decide⟩

/-- C5 amended.  For every over25 anchor value in `[32,100]` the derived
Over sequence is non-increasing as the goal line increases.  (Below 32
the floor of 32 in the Over 3.5 formula `max(32, over25-26)` exceeds
Over 2.5 = over25.) -/
theorem totals_monotone_amended :
    ∀ a : Anchors, 32 ≤ a.over25 → a.over25 ≤ 100 →
      (deriveTotals a).over.l15 ≤ (deriveTotals a).over.l05 ∧
      (deriveTotals a).over.l25 ≤ (deriveTotals a).over.l15 ∧
      (deriveTotals a).over.l35 ≤ (deriveTotals a).over.l25 ∧
      (deriveTotals a).over.l45 ≤ (deriveTotals a).over.l35 ∧
      (deriveTotals a).over.l55 ≤ (deriveTotals a).over.l45 := by
  intro a h0 h1
  simp only [deriveTotals, overLines]
  omega

/-- Witness for the amended C5, at the baseline anchor over25 = 58. -/
theorem totals_monotone_amended_witness :
    (32 ≤ aiBase.over25 ∧ aiBase.over25 ≤ 100) ∧
    ((deriveTotals aiBase).over.l15 ≤ (deriveTotals aiBase).over.l05 ∧
     (deriveTotals aiBase).over.l25 ≤ (deriveTotals aiBase).over.l15 ∧
     (deriveTotals aiBase).over.l35 ≤ (deriveTotals aiBase).over.l25 ∧
     (deriveTotals aiBase).over.l45 ≤ (deriveTotals aiBase).over.l35 ∧
     (deriveTotals aiBase).over.l55 ≤ (deriveTotals aiBase).over.l45) :=
  ⟨⟨by decide, by decide⟩, totals_monotone_amended aiBase (by decide) (by decide)⟩

/-- C6.  For every pair of baseline and expert anchor sets with all
values in `[0,100]`, every blended value lies in `[0,100]` and in the
closed interval between the minimum and the maximum of the two input
values for its key. -/
theorem blended_between_min_max :
    ∀ (d : Anchors) (e : ExpertData), d.InRange → e.InRange →
      (min d.homeWin e.expert_win ≤ (adjustProbabilities d e).homeWin ∧
        (adjustProbabilities d e).homeWin ≤ max d.homeWin e.expert_win ∧
        0 ≤ (adjustProbabilities d e).homeWin ∧ (adjustProbabilities d e).homeWin ≤ 100) ∧
      (min d.draw e.expert_draw ≤ (adjustProbabilities d e).draw ∧
        (adjustProbabilities d e).draw ≤ max d.draw e.expert_draw ∧
        0 ≤ (adjustProbabilities d e).draw ∧ (adjustProbabilities d e).draw ≤ 100) ∧
      (min d.awayWin e.expert_away ≤ (adjustProbabilities d e).awayWin ∧
        (adjustProbabilities d e).awayWin ≤ max d.awayWin e.expert_away ∧
        0 ≤ (adjustProbabilities d e).awayWin ∧ (adjustProbabilities d e).awayWin ≤ 100) ∧
      (min d.btts e.expert_btts ≤ (adjustProbabilities d e).btts ∧
        (adjustProbabilities d e).btts ≤ max d.btts e.expert_btts ∧
        0 ≤ (adjustProbabilities d e).btts ∧ (adjustProbabilities d e).btts ≤ 100) ∧
      (min d.over25 e.expert_over25 ≤ (adjustProbabilities d e).over25 ∧
        (adjustProbabilities d e).over25 ≤ max d.over25 e.expert_over25 ∧
        0 ≤ (adjustProbabilities d e).over25 ∧ (adjustProbabilities d e).over25 ≤ 100) ∧
      (min d.firstHalfGoals e.expert_first_half_goals ≤ (adjustProbabilities d e).firstHalfGoals ∧
        (adjustProbabilities d e).firstHalfGoals ≤ max d.firstHalfGoals e.expert_first_half_goals ∧
        0 ≤ (adjustProbabilities d e).firstHalfGoals ∧ (adjustProbabilities d e).firstHalfGoals ≤ 100) ∧
      (min d.cornersHigh e.expert_corners_high ≤ (adjustProbabilities d e).cornersHigh ∧
        (adjustProbabilities d e).cornersHigh ≤ max d.cornersHigh e.expert_corners_high ∧
        0 ≤ (adjustProbabilities d e).cornersHigh ∧ (adjustProbabilities d e).cornersHigh ≤ 100) ∧
      (min d.cardsHigh e.expert_cards_high ≤ (adjustProbabilities d e).cardsHigh ∧
        (adjustProbabilities d e).cardsHigh ≤ max d.cardsHigh e.expert_cards_high ∧
        0 ≤ (adjustProbabilities d e).cardsHigh ∧ (adjustProbabilities d e).cardsHigh ≤ 100) := by
  intro d e hd he
  obtain ⟨d1, d2, d3, d4, d5, d6, d7, d8, d9, d10, d11, d12, d13, d14, d15, d16⟩ := hd
  obtain ⟨e1, e2, e3, e4, e5, e6, e7, e8, e9, e10, e11, e12, e13, e14, e15, e16⟩ := he
  simp only [adjustProbabilities]
  exact ⟨blend_range_block d1 d2 e1 e2, blend_range_block d3 d4 e3 e4,
    blend_range_block d5 d6 e5 e6, blend_range_block d7 d8 e7 e8,
    blend_range_block d9 d10 e9 e10, blend_range_block d11 d12 e11 e12,
    blend_range_block d13 d14 e13 e14, blend_range_block d15 d16 e15 e16⟩

/-- Witness for C6: the hardcoded `aiBase` baseline against the
`fetchExpertData` stub. -/
theorem blended_between_min_max_witness :
    (aiBase.InRange ∧ fetchExpertData.InRange) ∧
    (min aiBase.homeWin fetchExpertData.expert_win ≤ (adjustProbabilities aiBase fetchExpertData).homeWin ∧
      (adjustProbabilities aiBase fetchExpertData).homeWin ≤ max aiBase.homeWin fetchExpertData.expert_win ∧
      0 ≤ (adjustProbabilities aiBase fetchExpertData).homeWin ∧
      (adjustProbabilities aiBase fetchExpertData).homeWin ≤ 100) :=
  ⟨⟨by decide, by decide⟩,
   (blended_between_min_max aiBase fetchExpertData (by decide) (by decide)).1⟩

/-- C7.  The double-chance values are the pairwise 1X2 sums clamped to
`[0,100]` by `Math.max(0, Math.min(100, …))`; hence for every homeWin /
draw / awayWin triple in `[0,100]` each of "1X", "X2", "12" lies in
`[0,100]`, even when the raw pairwise sum exceeds 100. -/
theorem double_chance_clamped :
    ∀ a : Anchors,
      0 ≤ a.homeWin → a.homeWin ≤ 100 → 0 ≤ a.draw → a.draw ≤ 100 →
      0 ≤ a.awayWin → a.awayWin ≤ 100 →
      ((deriveFulltime a).dc.oneX = max 0 (min 100 (a.homeWin + a.draw)) ∧
        0 ≤ (deriveFulltime a).dc.oneX ∧ (deriveFulltime a).dc.oneX ≤ 100) ∧
      ((deriveFulltime a).dc.xTwo = max 0 (min 100 (a.draw + a.awayWin)) ∧
        0 ≤ (deriveFulltime a).dc.xTwo ∧ (deriveFulltime a).dc.xTwo ≤ 100) ∧
      ((deriveFulltime a).dc.oneTwo = max 0 (min 100 (a.homeWin + a.awayWin)) ∧
        0 ≤ (deriveFulltime a).dc.oneTwo ∧ (deriveFulltime a).dc.oneTwo ≤ 100) := by
  intro a h1 h2 h3 h4 h5 h6
  simp [deriveFulltime]

/-- Witness for C7: the triple (60, 60, 60), where every raw pairwise
sum is 120 > 100 and the clamp caps all three values at 100. -/
theorem double_chance_clamped_witness :
    ((0 : ℤ) ≤ 60 ∧ (60 : ℤ) ≤ 100) ∧
    ((deriveFulltime ⟨60, 60, 60, 0, 0, 0, 0, 0⟩).dc.oneX =
        max 0 (min 100 ((60 : ℤ) + 60)) ∧
      0 ≤ (deriveFulltime ⟨60, 60, 60, 0, 0, 0, 0, 0⟩).dc.oneX ∧
      (deriveFulltime ⟨60, 60, 60, 0, 0, 0, 0, 0⟩).dc.oneX ≤ 100) :=
  ⟨⟨by decide, by decide⟩,
   (double_chance_clamped ⟨60, 60, 60, 0, 0, 0, 0, 0⟩ (by decide) (by decide)
     (by decide) (by decide) (by decide) (by decide)).1⟩

end SportsBackend
